import Mathlib

/-!
Verification of the memory-summarizer core of browser-use
(`browser_use/agent/memory_summarizer/service.py`).

The embedding below translates `MemorySummarizer.summarize_memories` and
`MemorySummarizer._create_summary` into Lean.  Python integers are modelled
as `Int`; the managed history is an explicit `MessageHistory` value and the
rewrite performed by `summarize_memories` is modelled as a function from the
old history to the new one.  The two external collaborators are parameters:
the Message Manager's token counter is a function `BaseMessage → Int`
(`self.message_manager._count_tokens`), and the summarization backend is a
function `List BaseMessage → LLMOutcome` (`self.llm.invoke`), whose outcome
is either a raised exception or a response content string.  The result type
`Option MessageHistory` records whether the call returns normally (`some`,
with the history as it stands after the call) or lets an exception escape to
the caller (`none`; the only such exception in the modelled code is the
`ZeroDivisionError` of `current_step % 0`).
-/

/-- Chat messages exchanged with the language model (langchain `BaseMessage`
with its `SystemMessage` / `HumanMessage` / `AIMessage` subclasses): a role
together with a textual content payload. -/
inductive BaseMessage where
  | system (content : String)
  | human (content : String)
  | ai (content : String)
  deriving DecidableEq

/-- `MessageMetadata` attached to each managed history entry: its token cost
and its provenance tag (`message_type`: the code compares it against the
strings "init" and "memory"). -/
structure MessageMetadata where
  tokens : Int
  message_type : String
  deriving DecidableEq

/-- `ManagedMessage`: a message paired with its metadata. -/
structure ManagedMessage where
  message : BaseMessage
  metadata : MessageMetadata
  deriving DecidableEq

/-- `MessageManager.state.history`: the ordered managed entries together with
the running token counter `current_tokens`. -/
structure MessageHistory where
  messages : List ManagedMessage
  current_tokens : Int
  deriving DecidableEq

/-- `MemorySummarizerSettings` (pydantic model with the same defaults). -/
structure MemorySummarizerSettings where
  enable_summarization : Bool := true
  summarize_every_n_steps : Int := 10
  deriving DecidableEq

/-- The observable outcome of one `self.llm.invoke(...)` call: either it
raises an exception, or it returns a response whose `content` stringifies to
the given text. -/
inductive LLMOutcome where
  | raises
  | returns (content : String)
  deriving DecidableEq

/-- The text of the summarization system prompt before the first f-string
interpolation (`{current_step - 10}`), copied from `_create_summary`. -/
def prompt_part1 : String :=
  "\nYou are a memory summarization system that summarizes the interaction history between a human and a browser agent. You are provided with the agent execution history of agent for past 10 steps. Your task is to create a summary of the agent's output history making sure to preserve all the information and context needed to continue the task. Make sure to include the output of the agent in the summary since that is the most important part of the history.\n\nFor each step, make sure to include following information:\n- Task objective: The overall goal the agent is trying to accomplish\n- Progress status: Current completion percentage and specific steps completed\n- Key findings: Important information discovered (URLs, data points, search results)\n- Navigation history: Which pages visited and their relevance\n- Errors & challenges: Problems encountered and solutions attempted\n- Current context: What page/state the agent is in now and what it's trying to do next\n- Agent actions: What actions the agent has taken and what the results were\n\nGuidelines:\n1. Make sure to include the output of the agent in the summary since that is the most important part of the history.\n2. Bullet points should start with action number "

/-- The prompt text between the interpolations `{current_step - 10}` and
`{current_step}`. -/
def prompt_part2 : String := " and end with "

/-- The prompt text between the interpolations `{current_step}` and
`{self.settings.summarize_every_n_steps}`. -/
def prompt_part3 : String :=
  " to make it easier to understand the progress since we are summarizing every "

/-- The prompt text after the last interpolation. -/
def prompt_part4 : String :=
  " steps.\n3. For each action:\n- Be specific and include exact data (URLs, element indexes, error messages)\n- Maintain chronological order of important actions\n- Preserve numeric counts and metrics (e.g., '3 out of 5 items processed')\n- Retain error messages and their causes for reference\n4. Only output the summary and nothing else.\n\nThe summary must be comprehensive enough that if this were the agent's only memory, it could continue the task effectively.\n"

/-- The system prompt `_create_summary` builds, its f-string interpolations
made explicit: the bullet-point window runs from `current_step - 10` to
`current_step` — the `10` is a literal in the source, while the cadence
mentioned afterwards interpolates `self.settings.summarize_every_n_steps`. -/
def summarization_system_prompt (current_step summarize_every_n_steps : Int) : String :=
  prompt_part1 ++ toString (current_step - 10) ++ prompt_part2 ++ toString current_step
    ++ prompt_part3 ++ toString summarize_every_n_steps ++ prompt_part4

/-- The same prompt as the spec words it (`buildSummary(eligible, currentStep,
windowSize = summarize_every_n_steps)`): the window it directs the backend to
cover runs from `current_step - windowSize` to `current_step`. -/
def summarization_system_prompt_spec
    (current_step windowSize summarize_every_n_steps : Int) : String :=
  prompt_part1 ++ toString (current_step - windowSize) ++ prompt_part2 ++ toString current_step
    ++ prompt_part3 ++ toString summarize_every_n_steps ++ prompt_part4

/-- The closing human request `_create_summary` places after the messages. -/
def closing_request : BaseMessage :=
  BaseMessage.human "Generate a summary of the above browser agent execution history."

/-- `MemorySummarizer._create_summary`: build the system and human prompts,
invoke the llm once on `[system_prompt, *messages, human_prompt]`; the
`except` branch turns a raised exception into `None`, otherwise the result is
`str(response.content)`. -/
def create_summary (llm : List BaseMessage → LLMOutcome) (messages : List BaseMessage)
    (current_step summarize_every_n_steps : Int) : Option String :=
  match llm (BaseMessage.system (summarization_system_prompt current_step summarize_every_n_steps)
      :: (messages ++ [closing_request])) with
  | LLMOutcome.raises => none
  | LLMOutcome.returns content => some content

/-- The partition test of the loop in `summarize_memories`: an entry goes to
`new_messages` exactly when its `message_type` is in `set(['init', 'memory'])`. -/
def is_retained_entry (msg : ManagedMessage) : Bool :=
  msg.metadata.message_type == "init" || msg.metadata.message_type == "memory"

/-- `new_messages` as the partition loop leaves it: the retained (`init` or
`memory`) entries, in original order. -/
def retained_messages (msgs : List ManagedMessage) : List ManagedMessage :=
  msgs.filter is_retained_entry

/-- `messages_to_process`: the eligible entries, in original order. -/
def messages_to_process (msgs : List ManagedMessage) : List ManagedMessage :=
  msgs.filter (fun m => !(is_retained_entry m))

/-- `sum(m.metadata.tokens for m in msgs)`. -/
def total_tokens (msgs : List ManagedMessage) : Int :=
  (msgs.map (fun m => m.metadata.tokens)).sum

/-- `MemorySummarizer.summarize_memories(current_step)`, as a function from
the history before the call to the history after it.  `count_tokens` is
`self.message_manager._count_tokens` and `llm` is the summarization backend.
The source's local bindings `summary_message`, `summary_tokens`,
`summary_metadata` and `removed_tokens` are inlined; `none` models the one
uncaught exception of the code path, Python's `ZeroDivisionError` at
`current_step % 0`.  Note `if not summary` in the source is True both for
`None` (backend raised) and for the empty string. -/
def summarize_memories (count_tokens : BaseMessage → Int)
    (llm : List BaseMessage → LLMOutcome) (settings : MemorySummarizerSettings)
    (history : MessageHistory) (current_step : Int) : Option MessageHistory :=
  if settings.enable_summarization = false then some history
  else if settings.summarize_every_n_steps = 0 then none
  else if current_step % settings.summarize_every_n_steps ≠ 0 then some history
  else if (messages_to_process history.messages).length ≤ 1 then some history
  else
    match create_summary llm ((messages_to_process history.messages).map (fun m => m.message))
        current_step settings.summarize_every_n_steps with
    | none => some history
    | some summary =>
      if summary = "" then some history
      else
        some { messages := retained_messages history.messages
                 ++ [{ message := BaseMessage.human summary,
                       metadata := { tokens := count_tokens (BaseMessage.human summary),
                                     message_type := "memory" } }],
               current_tokens := history.current_tokens
                 - total_tokens (messages_to_process history.messages)
                 + count_tokens (BaseMessage.human summary) }

/-- A concrete history for witnesses and for Scenario A: one `init` entry of
50 tokens and three step entries of 20, 30 and 25 tokens, with the counter
equal to their sum. -/
def init_entry : ManagedMessage :=
  { message := BaseMessage.system "browser agent system prompt",
    metadata := { tokens := 50, message_type := "init" } }

/-- Scenario A's history: `[init(50), step1(20), step2(30), step3(25)]`. -/
def scenario_history : MessageHistory :=
  { messages := [init_entry,
      { message := BaseMessage.ai "step 1 output", metadata := { tokens := 20, message_type := "step" } },
      { message := BaseMessage.ai "step 2 output", metadata := { tokens := 30, message_type := "step" } },
      { message := BaseMessage.ai "step 3 output", metadata := { tokens := 25, message_type := "step" } }],
    current_tokens := 125 }

lemma total_tokens_append (a b : List ManagedMessage) :
    total_tokens (a ++ b) = total_tokens a + total_tokens b := by
  simp [total_tokens]

lemma total_tokens_partition_eq (l : List ManagedMessage) :
    total_tokens (retained_messages l) + total_tokens (messages_to_process l)
      = total_tokens l := by
  induction l with
  | nil => simp [total_tokens, retained_messages, messages_to_process]
  | cons a t ih =>
    by_cases h : is_retained_entry a = true <;>
      simp [retained_messages, messages_to_process, total_tokens, List.filter_cons, h] at ih ⊢ <;>
      omega

/-- The compacted history a successful pass produces. -/
lemma summarize_memories_success (count_tokens : BaseMessage → Int)
    (llm : List BaseMessage → LLMOutcome) (settings : MemorySummarizerSettings)
    (history : MessageHistory) (current_step : Int) (s : String)
    (h1 : settings.enable_summarization = true)
    (h2 : settings.summarize_every_n_steps ≠ 0)
    (h3 : current_step % settings.summarize_every_n_steps = 0)
    (h4 : 2 ≤ (messages_to_process history.messages).length)
    (h5 : create_summary llm ((messages_to_process history.messages).map (fun m => m.message))
        current_step settings.summarize_every_n_steps = some s)
    (h6 : s ≠ "") :
    summarize_memories count_tokens llm settings history current_step =
      some { messages := retained_messages history.messages
               ++ [{ message := BaseMessage.human s,
                     metadata := { tokens := count_tokens (BaseMessage.human s),
                                   message_type := "memory" } }],
             current_tokens := history.current_tokens
               - total_tokens (messages_to_process history.messages)
               + count_tokens (BaseMessage.human s) } := by
  have h4' : ¬ (messages_to_process history.messages).length ≤ 1 := by omega
  unfold summarize_memories
  rw [if_neg (by simp [h1]), if_neg h2, if_neg (not_not_intro h3), if_neg h4', h5]
  simp [h6]

/-- C1: for every history in which `current_tokens` equals the sum of the
token counts of its entries, after any normally-returning call to
`summarize_memories` (any step, any configuration, any backend outcome —
success, failure or no-op) `current_tokens` again equals the sum of the
token counts of the entries then in the history. -/
theorem claim_c1_token_invariant (count_tokens : BaseMessage → Int)
    (llm : List BaseMessage → LLMOutcome) (settings : MemorySummarizerSettings)
    (history : MessageHistory) (current_step : Int) (after : MessageHistory)
    (hinv : history.current_tokens = total_tokens history.messages)
    (hcall : summarize_memories count_tokens llm settings history current_step = some after) :
    after.current_tokens = total_tokens after.messages := by
  unfold summarize_memories at hcall
  split_ifs at hcall with e1 e2 e3 e4
  · injection hcall with h; subst h; exact hinv
  · injection hcall with h; subst h; exact hinv
  · injection hcall with h; subst h; exact hinv
  · rcases hcs : create_summary llm
        ((messages_to_process history.messages).map (fun m => m.message)) current_step
        settings.summarize_every_n_steps with _ | s
    · rw [hcs] at hcall
      injection hcall with h; subst h; exact hinv
    · rw [hcs] at hcall
      dsimp only at hcall
      split_ifs at hcall with e5
      · injection hcall with h; subst h; exact hinv
      · injection hcall with h
        subst h
        dsimp only
        rw [total_tokens_append]
        have hone : total_tokens [⟨BaseMessage.human s, ⟨count_tokens (BaseMessage.human s), "memory"⟩⟩] = count_tokens (BaseMessage.human s) := by simp [total_tokens]
        rw [hone]
        have hp := total_tokens_partition_eq history.messages
        omega

/-- C1 witness: the invariant theorem applied to Scenario A's history at a
step where the backend raises, so the call is a no-op. -/
theorem claim_c1_witness :
    scenario_history.current_tokens = total_tokens scenario_history.messages :=
  claim_c1_token_invariant (fun _ => 0) (fun _ => LLMOutcome.raises)
    { enable_summarization := true, summarize_every_n_steps := 10 }
    scenario_history 10 scenario_history (by decide) (by decide)

/-- C2: `summarize_memories(step)` leaves the history (messages and counter)
completely unchanged whenever summarization is disabled, or the step is off
cadence, or the partition leaves at most one eligible entry. -/
theorem claim_c2_noop (count_tokens : BaseMessage → Int)
    (llm : List BaseMessage → LLMOutcome) (settings : MemorySummarizerSettings)
    (history : MessageHistory) (current_step : Int)
    (hn : settings.summarize_every_n_steps ≠ 0)
    (hcase : settings.enable_summarization = false
      ∨ current_step % settings.summarize_every_n_steps ≠ 0
      ∨ (messages_to_process history.messages).length ≤ 1) :
    summarize_memories count_tokens llm settings history current_step = some history := by
  unfold summarize_memories
  rcases hcase with h | h | h
  · rw [if_pos h]
  · by_cases he : settings.enable_summarization = false
    · rw [if_pos he]
    · rw [if_neg he, if_neg hn, if_pos h]
  · by_cases he : settings.enable_summarization = false
    · rw [if_pos he]
    · rw [if_neg he, if_neg hn]
      by_cases hm : current_step % settings.summarize_every_n_steps ≠ 0
      · rw [if_pos hm]
      · rw [if_neg hm, if_pos h]

/-- C2 witness: step 7 with cadence 10 is off cadence, so Scenario A's
history is returned untouched. -/
theorem claim_c2_witness :
    summarize_memories (fun _ => 0) (fun _ => LLMOutcome.raises)
      { enable_summarization := true, summarize_every_n_steps := 10 }
      scenario_history 7 = some scenario_history :=
  claim_c2_noop (fun _ => 0) (fun _ => LLMOutcome.raises)
    { enable_summarization := true, summarize_every_n_steps := 10 }
    scenario_history 7 (by decide) (Or.inr (Or.inl (by decide)))

/-- C3: when the backend call raises, `summarize_memories` still returns
normally and the history it leaves behind is exactly the one it started
from — no partial mutation. -/
theorem claim_c3_failure_isolation (count_tokens : BaseMessage → Int)
    (settings : MemorySummarizerSettings) (history : MessageHistory) (current_step : Int)
    (hn : settings.summarize_every_n_steps ≠ 0) :
    summarize_memories count_tokens (fun _ => LLMOutcome.raises) settings history current_step
      = some history := by
  unfold summarize_memories
  split_ifs with e1 e2 e3
  · rfl
  · rfl
  · rfl
  · simp [create_summary]

/-- C3 witness: step 10 triggers on Scenario A's history, the backend raises,
and the history comes back exactly as it was. -/
theorem claim_c3_witness :
    summarize_memories (fun _ => 0) (fun _ => LLMOutcome.raises)
      { enable_summarization := true, summarize_every_n_steps := 10 }
      scenario_history 10 = some scenario_history :=
  claim_c3_failure_isolation (fun _ => 0)
    { enable_summarization := true, summarize_every_n_steps := 10 }
    scenario_history 10 (by decide)

/-- C4: all entries tagged `init` or `memory` before a normally-returning
call are present after it, with identical message and metadata and in their
original relative order (they form a sublist of the new message list). -/
theorem claim_c4_retained_preserved (count_tokens : BaseMessage → Int)
    (llm : List BaseMessage → LLMOutcome) (settings : MemorySummarizerSettings)
    (history : MessageHistory) (current_step : Int) (after : MessageHistory)
    (hcall : summarize_memories count_tokens llm settings history current_step = some after) :
    List.Sublist (retained_messages history.messages) after.messages := by
  unfold summarize_memories at hcall
  split_ifs at hcall with e1 e2 e3 e4
  · injection hcall with h; subst h; exact List.filter_sublist _
  · injection hcall with h; subst h; exact List.filter_sublist _
  · injection hcall with h; subst h; exact List.filter_sublist _
  · rcases hcs : create_summary llm
        ((messages_to_process history.messages).map (fun m => m.message)) current_step
        settings.summarize_every_n_steps with _ | s
    · rw [hcs] at hcall
      injection hcall with h; subst h; exact List.filter_sublist _
    · rw [hcs] at hcall
      dsimp only at hcall
      split_ifs at hcall with e5
      · injection hcall with h; subst h; exact List.filter_sublist _
      · injection hcall with h
        subst h
        exact List.sublist_append_left _ _

/-- C4 witness: a successful compaction of Scenario A's history at step 10;
the `init` entry survives as a sublist of the new message list. -/
theorem claim_c4_witness :
    List.Sublist (retained_messages scenario_history.messages)
      [init_entry,
       { message := BaseMessage.human "SUMMARY",
         metadata := { tokens := 7, message_type := "memory" } }] :=
  claim_c4_retained_preserved (fun _ => 7) (fun _ => LLMOutcome.returns "SUMMARY")
    { enable_summarization := true, summarize_every_n_steps := 10 }
    scenario_history 10
    { messages := [init_entry,
        { message := BaseMessage.human "SUMMARY",
          metadata := { tokens := 7, message_type := "memory" } }],
      current_tokens := 57 }
    (by decide)

/-- C5: a successful compaction replaces the history with exactly the
retained entries, in their original relative order, followed by exactly one
new entry tagged `memory` as the last element — nothing else is added. -/
theorem claim_c5_single_summary (count_tokens : BaseMessage → Int)
    (llm : List BaseMessage → LLMOutcome) (settings : MemorySummarizerSettings)
    (history : MessageHistory) (current_step : Int) (s : String)
    (h1 : settings.enable_summarization = true)
    (h2 : settings.summarize_every_n_steps ≠ 0)
    (h3 : current_step % settings.summarize_every_n_steps = 0)
    (h4 : 2 ≤ (messages_to_process history.messages).length)
    (h5 : create_summary llm ((messages_to_process history.messages).map (fun m => m.message))
        current_step settings.summarize_every_n_steps = some s)
    (h6 : s ≠ "") :
    ∃ after, summarize_memories count_tokens llm settings history current_step = some after
      ∧ after.messages = retained_messages history.messages
          ++ [{ message := BaseMessage.human s,
                metadata := { tokens := count_tokens (BaseMessage.human s),
                              message_type := "memory" } }] :=
  ⟨_, summarize_memories_success count_tokens llm settings history current_step s
        h1 h2 h3 h4 h5 h6, rfl⟩

/-- C5 witness: compacting Scenario A's history at step 10 yields the `init`
entry followed by the single new `memory` entry. -/
theorem claim_c5_witness :
    ∃ after, summarize_memories (fun _ => 7) (fun _ => LLMOutcome.returns "SUMMARY")
        { enable_summarization := true, summarize_every_n_steps := 10 }
        scenario_history 10 = some after
      ∧ after.messages = retained_messages scenario_history.messages
          ++ [{ message := BaseMessage.human "SUMMARY",
                metadata := { tokens := 7, message_type := "memory" } }] :=
  claim_c5_single_summary (fun _ => 7) (fun _ => LLMOutcome.returns "SUMMARY")
    { enable_summarization := true, summarize_every_n_steps := 10 }
    scenario_history 10 "SUMMARY" rfl (by decide) (by decide) (by decide) rfl (by decide)

/-- C6: after a successful compaction the counter equals the old counter
minus the summed token counts of the removed eligible entries plus the token
count of the summary entry, the latter computed by the Message Manager's own
token-counting function on the summary message. -/
theorem claim_c6_token_update (count_tokens : BaseMessage → Int)
    (llm : List BaseMessage → LLMOutcome) (settings : MemorySummarizerSettings)
    (history : MessageHistory) (current_step : Int) (s : String)
    (h1 : settings.enable_summarization = true)
    (h2 : settings.summarize_every_n_steps ≠ 0)
    (h3 : current_step % settings.summarize_every_n_steps = 0)
    (h4 : 2 ≤ (messages_to_process history.messages).length)
    (h5 : create_summary llm ((messages_to_process history.messages).map (fun m => m.message))
        current_step settings.summarize_every_n_steps = some s)
    (h6 : s ≠ "") :
    ∃ after, summarize_memories count_tokens llm settings history current_step = some after
      ∧ after.current_tokens = history.current_tokens
          - total_tokens (messages_to_process history.messages)
          + count_tokens (BaseMessage.human s) :=
  ⟨_, summarize_memories_success count_tokens llm settings history current_step s
        h1 h2 h3 h4 h5 h6, rfl⟩

/-- C6 witness: on Scenario A's history the counter becomes
`125 - (20 + 30 + 25) + 7`. -/
theorem claim_c6_witness :
    ∃ after, summarize_memories (fun _ => 7) (fun _ => LLMOutcome.returns "SUMMARY")
        { enable_summarization := true, summarize_every_n_steps := 10 }
        scenario_history 10 = some after
      ∧ after.current_tokens = scenario_history.current_tokens
          - total_tokens (messages_to_process scenario_history.messages) + 7 :=
  claim_c6_token_update (fun _ => 7) (fun _ => LLMOutcome.returns "SUMMARY")
    { enable_summarization := true, summarize_every_n_steps := 10 }
    scenario_history 10 "SUMMARY" rfl (by decide) (by decide) (by decide) rfl (by decide)

/-- C7 (Scenario A): with history `[init(50), step1(20), step2(30),
step3(25)]`, cadence 10, step 10 and a backend returning "SUMMARY", the
result is `[init(50), memory(countTokens("SUMMARY"))]` with counter
`50 + countTokens("SUMMARY")`, for every token-counting function. -/
theorem claim_c7_scenario_a (count_tokens : BaseMessage → Int) :
    summarize_memories count_tokens (fun _ => LLMOutcome.returns "SUMMARY")
      { enable_summarization := true, summarize_every_n_steps := 10 }
      scenario_history 10
    = some { messages := [init_entry,
               { message := BaseMessage.human "SUMMARY",
                 metadata := { tokens := count_tokens (BaseMessage.human "SUMMARY"),
                               message_type := "memory" } }],
             current_tokens := 50 + count_tokens (BaseMessage.human "SUMMARY") } := by
  rw [summarize_memories_success count_tokens (fun _ => LLMOutcome.returns "SUMMARY")
    { enable_summarization := true, summarize_every_n_steps := 10 }
    scenario_history 10 "SUMMARY" rfl (by decide) (by decide) (by decide) rfl (by decide)]
  have hr : retained_messages scenario_history.messages = [init_entry] := by decide
  have hp : total_tokens (messages_to_process scenario_history.messages) = 75 := by decide
  have hc : scenario_history.current_tokens = 125 := rfl
  rw [hr, hp, hc]
  norm_num

/-- C8 (amended): `_create_summary` invokes the backend once, on the
instruction message followed by the given messages in their original order
and then the closing request; the instruction is the spec's `buildSummary`
directive with the window size hardcoded to `10`, not tied to
`summarize_every_n_steps`. -/
theorem claim_c8_window_and_order (llm : List BaseMessage → LLMOutcome)
    (messages : List BaseMessage) (current_step summarize_every_n_steps : Int) :
    create_summary llm messages current_step summarize_every_n_steps =
      match llm (BaseMessage.system
          (summarization_system_prompt_spec current_step 10 summarize_every_n_steps)
          :: (messages ++ [closing_request])) with
      | LLMOutcome.raises => none
      | LLMOutcome.returns content => some content := rfl

/-- C8 counterexample: with `summarize_every_n_steps = 5` and `current_step =
5` the prompt the code builds is not the spec's prompt whose window starts at
`currentStep - windowSize`: the code's window starts at `5 - 10 = -5`, the
claim's at `5 - 5 = 0`. -/
theorem claim_c8_counterexample :
    summarization_system_prompt 5 5 ≠ summarization_system_prompt_spec 5 5 5 := by
  intro hEq
  have hlen := congrArg String.length hEq
  unfold summarization_system_prompt summarization_system_prompt_spec at hlen
  have h5 : ((5 : Int) - 10) = -5 := by norm_num
  have h0 : ((5 : Int) - 5) = 0 := by norm_num
  rw [h5, h0] at hlen
  simp only [String.length_append] at hlen
  have l1 : (toString (-5 : Int)).length = 2 := rfl
  have l2 : (toString (0 : Int)).length = 1 := rfl
  rw [l1, l2] at hlen
  omega

/-- C9: with summarization enabled and a positive cadence `n`, step 0 passes
the cadence check (`0 % n = 0`; there is no step-greater-than-zero guard),
so compaction fires at step 0 as soon as at least two entries are eligible
and the backend returns a nonempty summary. -/
theorem claim_c9_step_zero (count_tokens : BaseMessage → Int)
    (settings : MemorySummarizerSettings) (history : MessageHistory) (s : String)
    (h1 : settings.enable_summarization = true)
    (hpos : 0 < settings.summarize_every_n_steps)
    (h4 : 2 ≤ (messages_to_process history.messages).length)
    (h6 : s ≠ "") :
    (0 : Int) % settings.summarize_every_n_steps = 0 ∧
    summarize_memories count_tokens (fun _ => LLMOutcome.returns s) settings history 0
      = some { messages := retained_messages history.messages
                 ++ [{ message := BaseMessage.human s,
                       metadata := { tokens := count_tokens (BaseMessage.human s),
                                     message_type := "memory" } }],
               current_tokens := history.current_tokens
                 - total_tokens (messages_to_process history.messages)
                 + count_tokens (BaseMessage.human s) } :=
  ⟨Int.zero_emod _,
   summarize_memories_success count_tokens (fun _ => LLMOutcome.returns s) settings history 0 s
     h1 (by omega) (Int.zero_emod _) h4 rfl h6⟩

/-- C9 witness: step 0 with cadence 10 compacts Scenario A's history. -/
theorem claim_c9_witness :
    (0 : Int) % 10 = 0 ∧
    summarize_memories (fun _ => 7) (fun _ => LLMOutcome.returns "SUMMARY")
      { enable_summarization := true, summarize_every_n_steps := 10 }
      scenario_history 0
      = some { messages := retained_messages scenario_history.messages
                 ++ [{ message := BaseMessage.human "SUMMARY",
                       metadata := { tokens := 7, message_type := "memory" } }],
               current_tokens := scenario_history.current_tokens
                 - total_tokens (messages_to_process scenario_history.messages) + 7 } :=
  claim_c9_step_zero (fun _ => 7)
    { enable_summarization := true, summarize_every_n_steps := 10 }
    scenario_history "SUMMARY" rfl (by decide) (by decide) (by decide)

/-- C10: a backend call that succeeds but whose response content is the
empty string is treated like a failed summary (`if not summary`): the call
returns with messages and counter unchanged. -/
theorem claim_c10_empty_summary (count_tokens : BaseMessage → Int)
    (settings : MemorySummarizerSettings) (history : MessageHistory) (current_step : Int)
    (hn : settings.summarize_every_n_steps ≠ 0) :
    summarize_memories count_tokens (fun _ => LLMOutcome.returns "") settings history current_step
      = some history := by
  unfold summarize_memories
  split_ifs with e1 e2 e3
  · rfl
  · rfl
  · rfl
  · simp [create_summary]

/-- C10 witness: an empty summary at a triggering step leaves Scenario A's
history untouched. -/
theorem claim_c10_witness :
    summarize_memories (fun _ => 0) (fun _ => LLMOutcome.returns "")
      { enable_summarization := true, summarize_every_n_steps := 10 }
      scenario_history 10 = some scenario_history :=
  claim_c10_empty_summary (fun _ => 0)
    { enable_summarization := true, summarize_every_n_steps := 10 }
    scenario_history 10 (by decide)
